import Mathlib

/-!
Verification development for the tf-controller reconciliation core.

A shallow embedding of the data model and the operations of
`api/v1alpha1/terraform_types.go` and `controllers/tf_controller.go`.
Go strings are modelled as Lean `String` (with `String.data` playing the
role of Go byte slicing on ASCII data), `time.Time` / `metav1.Time` as
`Nat` instants (nil pointers as `Option Nat`), `int64` as `Int`, and
`metav1.Duration` as `Nat`.
-/

/-- Model of `metav1.ConditionStatus`: the tri-state status of a condition. -/
inductive ConditionStatus where
  | conditionTrue
  | conditionFalse
  | conditionUnknown
deriving DecidableEq, Repr

/-- Model of `metav1.Condition`: type, status, reason, message, lastTransitionTime,
observedGeneration. -/
structure Condition where
  type : String
  status : ConditionStatus
  reason : String
  message : String
  lastTransitionTime : Nat
  observedGeneration : Int
deriving DecidableEq, Repr

/-- Model of `CrossNamespaceSourceReference`: the kind/name/namespace triple that
identifies a source object. `nspace` models the Go `Namespace` field
(`namespace` is reserved in Lean). -/
structure CrossNamespaceSourceReference where
  kind : String
  name : String
  nspace : String
deriving DecidableEq, Repr

/-- Model of `meta.NamespacedObjectReference`: a dependency reference.
`nspace` models the Go `Namespace` field. -/
structure NamespacedObjectReference where
  name : String
  nspace : String
deriving DecidableEq, Repr

/-- Model of `WriteOutputsToSecretSpec` (the `Name` field; the optional outputs
selection is irrelevant to the dependency check). -/
structure WriteOutputsToSecretSpec where
  name : String
deriving DecidableEq, Repr

/-- The fields of `TerraformSpec` used by the verified operations. -/
structure TerraformSpec where
  approvePlan : String
  destroy : Bool
  force : Bool
  interval : Nat
  retryInterval : Option Nat
  sourceRef : CrossNamespaceSourceReference
  dependsOn : List NamespacedObjectReference
  writeOutputsToSecret : Option WriteOutputsToSecretSpec
deriving DecidableEq, Repr

/-- Model of `PlanStatus`. -/
structure PlanStatus where
  lastApplied : String
  pending : String
  isDestroyPlan : Bool
  isDriftDetectionPlan : Bool
deriving DecidableEq, Repr

/-- Modelled from the spec: an inventory entry (a reference to an applied
resource). The field structure of `ResourceRef` lives outside the reviewed
sources; only its presence in the inventory list matters here. -/
structure ResourceRef where
  ref : String
deriving DecidableEq, Repr

/-- Model of `ResourceInventory`: the list of applied resource references. -/
structure ResourceInventory where
  entries : List ResourceRef
deriving DecidableEq, Repr

/-- The fields of `TerraformStatus` used by the verified operations. -/
structure TerraformStatus where
  observedGeneration : Int
  conditions : List Condition
  lastAppliedRevision : String
  lastAttemptedRevision : String
  lastPlannedRevision : String
  lastDriftDetectedAt : Option Nat
  lastAppliedByDriftDetectionAt : Option Nat
  plan : PlanStatus
  inventory : Option ResourceInventory
deriving DecidableEq, Repr

/-- The `Terraform` object: object metadata (name, namespace, generation)
plus spec and status. `nspace` models the Go `Namespace` field. -/
structure Terraform where
  name : String
  nspace : String
  generation : Int
  spec : TerraformSpec
  status : TerraformStatus
deriving DecidableEq, Repr

/-- Model of `ConditionTypeApply`. -/
def ConditionTypeApply : String := "Apply"

/-- Model of `meta.ReadyCondition` (external constant from fluxcd/pkg/apis/meta). -/
def ReadyCondition : String := "Ready"

/-- Model of `MaxConditionMessageLength`. -/
def MaxConditionMessageLength : Nat := 20000

/-- Model of `ApprovePlanAutoValue`. -/
def ApprovePlanAutoValue : String := "auto"

/-- Model of `trimString`: keep the string whole when within the limit, otherwise
take the first `limit` characters and append an ellipsis. -/
def trimString (str : String) (limit : Nat) : String :=
  if str.length ≤ limit then str
  else String.mk (str.data.take limit) ++ "..."

/-- Model of `Terraform.HasDrift`: true when some Apply-type condition is True and
the recorded drift time is strictly after that condition's transition. -/
def Terraform.HasDrift (tf : Terraform) : Bool :=
  tf.status.conditions.any fun c =>
    c.type == ConditionTypeApply && c.status == ConditionStatus.conditionTrue &&
      (match tf.status.lastDriftDetectedAt with
       | some t => decide (c.lastTransitionTime < t)
       | none => false)

/-- Model of `Terraform.GetRetryInterval`: the retry interval, defaulting to the
reconcile interval when unset. -/
def Terraform.GetRetryInterval (tf : Terraform) : Nat :=
  match tf.spec.retryInterval with
  | some d => d
  | none => tf.spec.interval

/-- Model of `apimeta.FindStatusCondition` (k8s.io/apimachinery, used by the status
setters): the first condition with the given type. -/
def findStatusCondition (conditions : List Condition) (t : String) : Option Condition :=
  conditions.find? fun c => c.type == t

/-- Model of `apimeta.IsStatusConditionTrue` (k8s.io/apimachinery): whether the first
condition of the given type has status True. -/
def isStatusConditionTrue (conditions : List Condition) (t : String) : Bool :=
  match findStatusCondition conditions t with
  | some c => c.status == ConditionStatus.conditionTrue
  | none => false

/-- Model of `apimeta.SetStatusCondition` (k8s.io/apimachinery, the upsert used by
every status setter in `terraform_types.go`): update the first condition
with the new condition's type in place, bumping `lastTransitionTime` only
when the status changes (to the new condition's time if set, else `now`);
append when no condition of that type exists (stamping time `now` when the
new condition carries the zero time). -/
def setStatusCondition (conditions : List Condition) (nc : Condition) (now : Nat) :
    List Condition :=
  match conditions with
  | [] => [{ nc with lastTransitionTime := if nc.lastTransitionTime = 0 then now
                                           else nc.lastTransitionTime }]
  | c :: rest =>
    if c.type = nc.type then
      (if c.status ≠ nc.status then
        { c with status := nc.status,
                 lastTransitionTime := if nc.lastTransitionTime ≠ 0 then nc.lastTransitionTime
                                       else now,
                 reason := nc.reason,
                 message := nc.message,
                 observedGeneration := nc.observedGeneration }
       else
        { c with reason := nc.reason,
                 message := nc.message,
                 observedGeneration := nc.observedGeneration }) :: rest
    else c :: setStatusCondition rest nc now

/-- Model of `SetTerraformReadiness`: upsert the Ready condition (message trimmed),
record the observed generation and the last attempted revision. -/
def SetTerraformReadiness (tf : Terraform) (status : ConditionStatus)
    (reason message revision : String) (now : Nat) : Terraform :=
  let nc : Condition :=
    { type := ReadyCondition
      status := status
      reason := reason
      message := trimString message MaxConditionMessageLength
      lastTransitionTime := 0
      observedGeneration := 0 }
  { tf with status :=
    { tf.status with
        conditions := setStatusCondition tf.status.conditions nc now
        observedGeneration := tf.generation
        lastAttemptedRevision := revision } }

/-- Model of `TFExecApplySucceedReason`. -/
def TFExecApplySucceedReason : String := "TerraformAppliedSucceed"

/-- Model of `TerraformApplied`: record a successful apply — Apply condition True,
drift-correction stamp when the applied plan was a drift-detection plan,
pending plan moved to last-applied, destroy flag recorded, revision and
inventory updated when supplied, readiness reset to Unknown. -/
def TerraformApplied (tf : Terraform) (revision message : String)
    (isDestroyApply : Bool) (entries : List ResourceRef) (now : Nat) : Terraform :=
  let nc : Condition :=
    { type := ConditionTypeApply
      status := ConditionStatus.conditionTrue
      reason := TFExecApplySucceedReason
      message := trimString message MaxConditionMessageLength
      lastTransitionTime := 0
      observedGeneration := 0 }
  let tf1 : Terraform :=
    { tf with status :=
      { tf.status with conditions := setStatusCondition tf.status.conditions nc now } }
  let tf2 : Terraform :=
    if tf1.status.plan.isDriftDetectionPlan then
      { tf1 with status := { tf1.status with lastAppliedByDriftDetectionAt := some now } }
    else tf1
  let tf3 : Terraform :=
    { tf2 with status :=
      { tf2.status with plan :=
        { lastApplied := tf2.status.plan.pending
          pending := ""
          isDestroyPlan := isDestroyApply
          isDriftDetectionPlan := false } } }
  let tf4 : Terraform :=
    if revision ≠ "" then
      { tf3 with status := { tf3.status with lastAppliedRevision := revision } }
    else tf3
  let tf5 : Terraform :=
    if entries.length > 0 then
      { tf4 with status := { tf4.status with inventory := some ⟨entries⟩ } }
    else tf4
  SetTerraformReadiness tf5 ConditionStatus.conditionUnknown TFExecApplySucceedReason
    (message ++ ": " ++ revision) revision now

/-- Model of `strings.Replace(s, old, new, 1)` for one-character patterns: replace
the first occurrence. -/
def replaceFirstChar : List Char → Char → Char → List Char
  | [], _, _ => []
  | c :: rest, o, n => if c = o then n :: rest else c :: replaceFirstChar rest o n

/-- Model of `strings.SplitN(s, sep, 2)` for a one-character separator: `some` of
the two parts around the first occurrence, `none` when the separator is
absent (the one-element result in Go). -/
def splitFirstAt (sep : Char) : List Char → Option (List Char × List Char)
  | [] => none
  | c :: rest =>
    if c = sep then some ([], rest)
    else match splitFirstAt sep rest with
      | some (a, b) => some (c :: a, b)
      | none => none

/-- Model of `GetPlanIdAndApproveMessage`: the plan id is the revision with its
first slash turned into a dash, prefixed by `plan-`; the approval message
embeds a short plan id (branch part plus the first 10 characters of the
commit part, when the commit part has at least 10 characters). -/
def GetPlanIdAndApproveMessage (revision message : String) : String × String :=
  let planRev : String := String.mk (replaceFirstChar revision.data '/' '-')
  let planId : String := "plan-" ++ planRev
  let shortPlanId : String :=
    match splitFirstAt '/' revision.data with
    | some (p0, p1) =>
      if p1.length ≥ 10 then "plan-" ++ String.mk p0 ++ "-" ++ String.mk (p1.take 10)
      else planId
    | none => planId
  let approveMessage : String :=
    message ++ ": set approvePlan: \"" ++ shortPlanId ++ "\" to approve this plan."
  (planId, approveMessage)

/-- A byte stream (the HTTP response body), as a list of bytes. -/
abbrev ByteStream : Type := List Nat

/-- The checksum-mismatch error of `verifyArtifact`, carrying the computed
and the advertised checksums. -/
inductive VerifyError where
  | checksumMismatch (computed advertised : String)
deriving DecidableEq, Repr

/-- Model of `verifyArtifact`: select SHA-1 when the advertised checksum has exactly
40 characters, SHA-256 otherwise; fail iff the hex digest of the body
differs from the advertised checksum (exact, case-sensitive string
equality). The hash functions are abstract parameters (`sha1Hex`,
`sha256Hex` stand for hex-encoded `crypto/sha1` / `crypto/sha256`). -/
def verifyArtifact (sha1Hex sha256Hex : ByteStream → String)
    (checksum : String) (body : ByteStream) : Option VerifyError :=
  let digest : String :=
    if checksum.length = 40 then sha1Hex body else sha256Hex body
  if digest ≠ checksum then some (VerifyError.checksumMismatch digest checksum)
  else none

/-- Model of `downloadAsBytes` (verification tail): return the buffered body only
when verification succeeds, propagate the error (and no bytes) otherwise. -/
def downloadAsBytes (sha1Hex sha256Hex : ByteStream → String)
    (checksum : String) (body : ByteStream) : Except VerifyError ByteStream :=
  match verifyArtifact sha1Hex sha256Hex checksum body with
  | some e => Except.error e
  | none => Except.ok body

/-- The errors produced by `checkDependencies`, one constructor per
`fmt.Errorf` site, carrying the dependency's resolved namespace/name. -/
inductive DepCheckError where
  | getFailed (nspace name : String)
  | notReady (nspace name : String)
  | notUpdated (nspace name : String)
  | outputSecretNotReady (secret nspace name : String)
deriving DecidableEq, Repr

/-- The per-dependency body of the `checkDependencies` loop. The cluster
fetch is abstracted as `getTf : namespace → name → Option Terraform` and
secret existence as `secretExists : namespace → name → Bool`; the
finalizer registration is a side effect that does not alter the result.
Checks in source order: at least one condition and matching observed
generation, Ready condition true, same-source revision already
planned/applied, output secret present. -/
def checkDependency (terraform : Terraform) (revision : String)
    (secretExists : String → String → Bool) (getTf : String → String → Option Terraform)
    (d : NamespacedObjectReference) : Option DepCheckError :=
  let ns : String := if d.nspace = "" then terraform.nspace else d.nspace
  match getTf ns d.name with
  | none => some (DepCheckError.getFailed ns d.name)
  | some tf =>
    if tf.status.conditions.length = 0 ∨ tf.generation ≠ tf.status.observedGeneration then
      some (DepCheckError.notReady ns d.name)
    else if ¬ isStatusConditionTrue tf.status.conditions ReadyCondition then
      some (DepCheckError.notReady ns d.name)
    else if tf.spec.sourceRef.name = terraform.spec.sourceRef.name ∧
            tf.spec.sourceRef.nspace = terraform.spec.sourceRef.nspace ∧
            tf.spec.sourceRef.kind = terraform.spec.sourceRef.kind ∧
            revision ≠ tf.status.lastAppliedRevision ∧
            revision ≠ tf.status.lastPlannedRevision then
      some (DepCheckError.notUpdated ns d.name)
    else
      match tf.spec.writeOutputsToSecret with
      | some w =>
        if secretExists tf.nspace w.name then none
        else some (DepCheckError.outputSecretNotReady w.name tf.nspace d.name)
      | none => none

/-- Model of `checkDependencies`: run the per-dependency checks over the declared
dependencies in order; the first failing check aborts the loop with its
error, `none` means every dependency is satisfied. -/
def checkDependencies (terraform : Terraform) (revision : String)
    (secretExists : String → String → Bool)
    (getTf : String → String → Option Terraform) : Option DepCheckError :=
  terraform.spec.dependsOn.findSome? (checkDependency terraform revision secretExists getTf)

/-- Modelled from the spec: `forceOrAutoApply` (a controller helper whose
definition is outside the reviewed sources) — approval is forced by
`Spec.Force` or automatic via `approvePlan: "auto"`. -/
def forceOrAutoApply (tf : Terraform) : Bool :=
  tf.spec.force || tf.spec.approvePlan == ApprovePlanAutoValue

/-- Modelled from the spec: `shouldApply` (a controller helper whose
definition is outside the reviewed sources) — the approval field names the
exact pending plan id. -/
def shouldApply (tf : Terraform) : Bool :=
  tf.spec.approvePlan != "" && tf.spec.approvePlan == tf.status.plan.pending

/-- A requeue directive of `ctrl.Result`: none (`ctrl.Result{}`),
immediate (`Requeue: true`), or after a delay (`RequeueAfter`). -/
inductive RequeueDecision where
  | noRequeue
  | immediate
  | after (d : Nat)
deriving DecidableEq, Repr

/-- The outcome of the plan/apply/drift cycle (`r.reconcile`): success,
the distinguished drift outcome, or any other failure. -/
inductive CycleOutcome where
  | ok
  | drift
  | failed
deriving DecidableEq, Repr

/-- The result of the reconcile tail: whether the plan/apply/drift cycle
was invoked, and the requeue directive returned. -/
structure ReconcileTailResult where
  cycleInvoked : Bool
  decision : RequeueDecision
deriving DecidableEq, Repr

/-- The requeue decision made after the plan/apply/drift cycle returns
(`Reconcile`, from the error check to the final return): drift and other
failures requeue at the retry interval of the fetched object `tf0`; on
success, a still-pending plan without force/auto approval stops with no
requeue, otherwise requeue after the declared interval. -/
def postCyclePhase (tf0 reconciled : Terraform) (outcome : CycleOutcome) :
    RequeueDecision :=
  match outcome with
  | CycleOutcome.drift => RequeueDecision.after tf0.GetRetryInterval
  | CycleOutcome.failed => RequeueDecision.after tf0.GetRetryInterval
  | CycleOutcome.ok =>
    if reconciled.status.plan.pending != "" && !(forceOrAutoApply reconciled) then
      RequeueDecision.noRequeue
    else RequeueDecision.after tf0.spec.interval

/-- The tail of `Reconcile` from the manual-approval gate onward: with a
pending plan and approval neither forced/automatic nor naming the plan,
stop with no requeue without invoking the cycle; otherwise run the
plan/apply/drift cycle (abstracted as `cycle`) and decide the requeue. -/
def reconcileTail (tf : Terraform) (cycle : Terraform → Terraform × CycleOutcome) :
    ReconcileTailResult :=
  if tf.status.plan.pending != "" && !(forceOrAutoApply tf) && !(shouldApply tf) then
    { cycleInvoked := false, decision := RequeueDecision.noRequeue }
  else
    let r := cycle tf
    { cycleInvoked := true, decision := postCyclePhase tf r.1 r.2 }

theorem hasDrift_eq_true_iff (tf : Terraform) :
    tf.HasDrift = true ↔
      ∃ c ∈ tf.status.conditions, c.type = ConditionTypeApply ∧
        c.status = ConditionStatus.conditionTrue ∧
        ∃ t, tf.status.lastDriftDetectedAt = some t ∧ c.lastTransitionTime < t := by
  unfold Terraform.HasDrift
  cases hda : tf.status.lastDriftDetectedAt with
  | none => simp [List.any_eq_true, hda]
  | some t => simp [List.any_eq_true, hda, and_assoc]

/-- C1: `HasDrift()` is true iff some condition of type Apply has status
True and the recorded `LastDriftDetectedAt` timestamp is strictly after
that condition's `lastTransitionTime`; it is false when no such condition
exists or no drift timestamp is recorded, and the result is the same for
every ordering of the conditions list. -/
theorem HasDrift_iff_drift_after_apply (tf tf' : Terraform)
    (hperm : tf.status.conditions.Perm tf'.status.conditions)
    (hdrift : tf.status.lastDriftDetectedAt = tf'.status.lastDriftDetectedAt) :
    (tf.HasDrift = true ↔
      ∃ c ∈ tf.status.conditions, c.type = ConditionTypeApply ∧
        c.status = ConditionStatus.conditionTrue ∧
        ∃ t, tf.status.lastDriftDetectedAt = some t ∧ c.lastTransitionTime < t)
    ∧ tf.HasDrift = tf'.HasDrift := by
  refine ⟨hasDrift_eq_true_iff tf, ?_⟩
  have h1 := hasDrift_eq_true_iff tf
  have h2 := hasDrift_eq_true_iff tf'
  have hiff :
      (∃ c ∈ tf.status.conditions, c.type = ConditionTypeApply ∧
        c.status = ConditionStatus.conditionTrue ∧
        ∃ t, tf.status.lastDriftDetectedAt = some t ∧ c.lastTransitionTime < t) ↔
      (∃ c ∈ tf'.status.conditions, c.type = ConditionTypeApply ∧
        c.status = ConditionStatus.conditionTrue ∧
        ∃ t, tf'.status.lastDriftDetectedAt = some t ∧ c.lastTransitionTime < t) := by
    rw [hdrift]
    constructor
    · rintro ⟨c, hc, h⟩
      exact ⟨c, hperm.mem_iff.mp hc, h⟩
    · rintro ⟨c, hc, h⟩
      exact ⟨c, hperm.mem_iff.mpr hc, h⟩
  have hbridge : tf.HasDrift = true ↔ tf'.HasDrift = true := by
    rw [h1, h2]
    exact hiff
  cases ha : tf.HasDrift <;> cases hb : tf'.HasDrift <;> simp_all

/-- A concrete spec used by witness instances. -/
def specW : TerraformSpec :=
  { approvePlan := ""
    destroy := false
    force := false
    interval := 60
    retryInterval := none
    sourceRef := { kind := "GitRepository", name := "repo", nspace := "flux-system" }
    dependsOn := []
    writeOutputsToSecret := none }

/-- A concrete plan status used by witness instances. -/
def planW : PlanStatus :=
  { lastApplied := "", pending := "", isDestroyPlan := false, isDriftDetectionPlan := false }

/-- A concrete Apply-type condition used by witness instances. -/
def applyCondW : Condition :=
  { type := "Apply", status := ConditionStatus.conditionTrue, reason := "TerraformAppliedSucceed"
    message := "applied", lastTransitionTime := 5, observedGeneration := 0 }

/-- A concrete Ready-type condition used by witness instances. -/
def readyCondW : Condition :=
  { type := "Ready", status := ConditionStatus.conditionTrue, reason := "ok"
    message := "ready", lastTransitionTime := 7, observedGeneration := 0 }

/-- A concrete drifted Terraform object used by witness instances. -/
def tfDriftW : Terraform :=
  { name := "tf1", nspace := "default", generation := 2
    spec := specW
    status :=
      { observedGeneration := 2
        conditions := [applyCondW, readyCondW]
        lastAppliedRevision := "main/aaa"
        lastAttemptedRevision := "main/aaa"
        lastPlannedRevision := "main/aaa"
        lastDriftDetectedAt := some 9
        lastAppliedByDriftDetectionAt := none
        plan := planW
        inventory := none } }

/-- Copy of `tfDriftW` with its conditions listed in the opposite order. -/
def tfDriftW' : Terraform :=
  { tfDriftW with status := { tfDriftW.status with conditions := [readyCondW, applyCondW] } }

theorem HasDrift_iff_drift_after_apply_witness :
    (tfDriftW.HasDrift = true ↔
      ∃ c ∈ tfDriftW.status.conditions, c.type = ConditionTypeApply ∧
        c.status = ConditionStatus.conditionTrue ∧
        ∃ t, tfDriftW.status.lastDriftDetectedAt = some t ∧ c.lastTransitionTime < t)
    ∧ tfDriftW.HasDrift = tfDriftW'.HasDrift :=
  HasDrift_iff_drift_after_apply tfDriftW tfDriftW' (by decide) rfl

/-- C10: `GetRetryInterval` returns the declared retry interval when one is
set and falls back to the reconcile interval when it is nil. -/
theorem GetRetryInterval_defaults_to_interval (tf : Terraform) (d : Nat) :
    (tf.spec.retryInterval = some d → tf.GetRetryInterval = d)
    ∧ (tf.spec.retryInterval = none → tf.GetRetryInterval = tf.spec.interval) := by
  constructor <;> intro h <;> simp [Terraform.GetRetryInterval, h]

/-- Copy of `tfDriftW` with an explicit retry interval. -/
def tfRetryW : Terraform :=
  { tfDriftW with spec := { specW with retryInterval := some 30 } }

theorem GetRetryInterval_defaults_to_interval_witness :
    tfDriftW.GetRetryInterval = tfDriftW.spec.interval ∧ tfRetryW.GetRetryInterval = 30 :=
  ⟨(GetRetryInterval_defaults_to_interval tfDriftW 0).2 rfl,
   (GetRetryInterval_defaults_to_interval tfRetryW 30).1 rfl⟩

/-- C9: on revision `main/abcdefabcdefabcdefabcdefabcdefabcdefabcd` and
message `msg`, the plan id is the revision with its first slash replaced
by a dash prefixed with `plan-`, and the approval message embeds the short
plan id `plan-main-abcdefabcd`. -/
theorem GetPlanIdAndApproveMessage_example :
    GetPlanIdAndApproveMessage "main/abcdefabcdefabcdefabcdefabcdefabcdefabcd" "msg" =
      ("plan-main-abcdefabcdefabcdefabcdefabcdefabcdefabcd",
       "msg: set approvePlan: \"plan-main-abcdefabcd\" to approve this plan.") := by
  rfl

/-- C4: artifact verification selects SHA-1 exactly when the advertised
checksum has 40 characters and SHA-256 for any other length; verification
fails iff the hex digest differs from the advertised checksum under exact
case-sensitive string equality; on mismatch the download returns the error
and not the fetched bytes. -/
theorem verifyArtifact_checksum_gate (sha1Hex sha256Hex : ByteStream → String)
    (checksum : String) (body : ByteStream) :
    (checksum.length = 40 →
      (verifyArtifact sha1Hex sha256Hex checksum body = none ↔ sha1Hex body = checksum))
    ∧ (checksum.length ≠ 40 →
      (verifyArtifact sha1Hex sha256Hex checksum body = none ↔ sha256Hex body = checksum))
    ∧ (downloadAsBytes sha1Hex sha256Hex checksum body = Except.ok body ↔
      verifyArtifact sha1Hex sha256Hex checksum body = none)
    ∧ (∀ e, verifyArtifact sha1Hex sha256Hex checksum body = some e →
      downloadAsBytes sha1Hex sha256Hex checksum body = Except.error e) := by
  refine ⟨?_, ?_, ?_, ?_⟩
  · intro h40
    simp [verifyArtifact, h40]
  · intro h40
    simp [verifyArtifact, h40]
  · unfold downloadAsBytes
    cases hv : verifyArtifact sha1Hex sha256Hex checksum body <;> simp
  · intro e he
    unfold downloadAsBytes
    rw [he]

/-- A 40-character checksum used by the verification witness. -/
def checksumW : String := String.mk (List.replicate 40 'a')

/-- A stand-in SHA-1 hex function used by the verification witness. -/
def sha1HexW : ByteStream → String := fun _ => checksumW

/-- A stand-in SHA-256 hex function used by the verification witness. -/
def sha256HexW : ByteStream → String := fun _ => "deadbeef"

theorem verifyArtifact_checksum_gate_witness :
    checksumW.length = 40
    ∧ (verifyArtifact sha1HexW sha256HexW checksumW [0, 1] = none ↔
      sha1HexW [0, 1] = checksumW)
    ∧ (downloadAsBytes sha1HexW sha256HexW checksumW [0, 1] = Except.ok [0, 1] ↔
      verifyArtifact sha1HexW sha256HexW checksumW [0, 1] = none) :=
  ⟨by decide,
   (verifyArtifact_checksum_gate sha1HexW sha256HexW checksumW [0, 1]).1 (by decide),
   (verifyArtifact_checksum_gate sha1HexW sha256HexW checksumW [0, 1]).2.2.1⟩

/-- C5: `TerraformApplied` moves the pending plan id into the last-applied
slot and clears the pending plan, records the destroy flag, replaces the
inventory only when the supplied entries are non-empty, and stamps the
drift-correction timestamp exactly when the applied plan was a
drift-detection plan. -/
theorem TerraformApplied_plan_transition (tf : Terraform) (revision message : String)
    (isDestroyApply : Bool) (entries : List ResourceRef) (now : Nat) :
    (TerraformApplied tf revision message isDestroyApply entries now).status.plan.lastApplied
        = tf.status.plan.pending
    ∧ (TerraformApplied tf revision message isDestroyApply entries now).status.plan.pending = ""
    ∧ (TerraformApplied tf revision message isDestroyApply entries now).status.plan.isDestroyPlan
        = isDestroyApply
    ∧ (TerraformApplied tf revision message isDestroyApply entries now).status.inventory
        = (if entries.length > 0 then some ⟨entries⟩ else tf.status.inventory)
    ∧ (TerraformApplied tf revision message isDestroyApply entries now).status.lastAppliedByDriftDetectionAt
        = (if tf.status.plan.isDriftDetectionPlan then some now
           else tf.status.lastAppliedByDriftDetectionAt) := by
  unfold TerraformApplied SetTerraformReadiness
  by_cases h1 : tf.status.plan.isDriftDetectionPlan <;>
    by_cases h2 : revision = "" <;>
      by_cases h3 : entries.length > 0 <;>
        simp [h1, h2, h3]

/-- C8 counterexample: a 20001-character message is stored as 20003
characters — the first 20000 characters plus a 3-character ellipsis —
refuting the claimed 20000-character cap on the stored message. -/
theorem trimString_exceeds_cap :
    (trimString (String.mk (List.replicate 20001 'a')) MaxConditionMessageLength).length = 20003
    ∧ ¬ (trimString (String.mk (List.replicate 20001 'a')) MaxConditionMessageLength).length
        ≤ MaxConditionMessageLength := by
  have hlen : (String.mk (List.replicate 20001 'a')).length = 20001 := by
    show (List.replicate 20001 'a').length = 20001
    rw [List.length_replicate]
  have h : trimString (String.mk (List.replicate 20001 'a')) MaxConditionMessageLength =
      String.mk (List.replicate 20000 'a') ++ "..." := by
    unfold trimString
    rw [hlen]
    rw [if_neg (by decide)]
    show String.mk ((List.replicate 20001 'a').take MaxConditionMessageLength) ++ "..." = _
    rw [List.take_replicate]
    have hmin : MaxConditionMessageLength ⊓ 20001 = 20000 := by decide
    rw [hmin]
  have h2 : (String.mk (List.replicate 20000 'a')).length = 20000 := by
    show (List.replicate 20000 'a').length = 20000
    rw [List.length_replicate]
  constructor
  · rw [h, String.length_append, h2]
    decide
  · rw [h, String.length_append, h2]
    decide

/-- C8 amended: every stored condition message is truncated to at most
`MaxConditionMessageLength + 3` characters (the first 20000 characters
plus an appended ellipsis); messages within the limit are stored
verbatim. -/
theorem trimString_length_bound (str : String) :
    (trimString str MaxConditionMessageLength).length ≤ MaxConditionMessageLength + 3
    ∧ (str.length ≤ MaxConditionMessageLength →
      trimString str MaxConditionMessageLength = str) := by
  constructor
  · unfold trimString
    split
    · omega
    · rw [String.length_append]
      have h1 : (String.mk (str.data.take MaxConditionMessageLength)).length
          ≤ MaxConditionMessageLength := by
        show (str.data.take MaxConditionMessageLength).length ≤ MaxConditionMessageLength
        rw [List.length_take]
        exact min_le_left _ _
      have h2 : ("..." : String).length = 3 := by decide
      omega
  · intro h
    unfold trimString
    rw [if_pos h]

theorem findStatusCondition_cons_of_eq (d : Condition) (rest : List Condition) (t : String)
    (h : d.type = t) : findStatusCondition (d :: rest) t = some d := by
  simp [findStatusCondition, List.find?_cons, h]

theorem findStatusCondition_cons_of_ne (d : Condition) (rest : List Condition) (t : String)
    (h : d.type ≠ t) : findStatusCondition (d :: rest) t = findStatusCondition rest t := by
  simp [findStatusCondition, List.find?_cons, h]

/-- C3 amended: the condition-set operation is an upsert keyed by type:
re-setting the stored condition's type, status, reason, message (and
observed generation) is a full no-op, leaving `lastTransitionTime`
unchanged; a status change rewrites the condition and bumps
`lastTransitionTime` to the set time; a change of only reason or message
rewrites those fields but leaves `lastTransitionTime` untouched. -/
theorem setStatusCondition_upsert (conds : List Condition) (nc c : Condition) (now : Nat)
    (hfind : findStatusCondition conds nc.type = some c) :
    (c.status = nc.status → c.reason = nc.reason → c.message = nc.message →
      c.observedGeneration = nc.observedGeneration →
      setStatusCondition conds nc now = conds)
    ∧ (c.status ≠ nc.status → nc.lastTransitionTime = 0 →
      findStatusCondition (setStatusCondition conds nc now) nc.type =
        some { c with
                status := nc.status
                reason := nc.reason
                message := nc.message
                observedGeneration := nc.observedGeneration
                lastTransitionTime := now })
    ∧ (c.status = nc.status →
      findStatusCondition (setStatusCondition conds nc now) nc.type =
        some { c with
                reason := nc.reason
                message := nc.message
                observedGeneration := nc.observedGeneration }) := by
  induction conds with
  | nil => simp [findStatusCondition] at hfind
  | cons d rest ih =>
    by_cases hd : d.type = nc.type
    · have hc : d = c := by
        have hfc := findStatusCondition_cons_of_eq d rest nc.type hd
        rw [hfind] at hfc
        exact (Option.some_inj.mp hfc).symm
      subst hc
      refine ⟨?_, ?_, ?_⟩
      · intro hs hr hm hog
        simp only [setStatusCondition, if_pos hd]
        rw [if_neg (by simp [hs])]
        rw [← hr, ← hm, ← hog]
      · intro hs hz
        simp only [setStatusCondition, if_pos hd]
        rw [if_pos hs, if_neg (by simp [hz])]
        exact findStatusCondition_cons_of_eq _ rest nc.type hd
      · intro hs
        simp only [setStatusCondition, if_pos hd]
        rw [if_neg (by simp [hs])]
        exact findStatusCondition_cons_of_eq _ rest nc.type hd
    · have hfind' : findStatusCondition rest nc.type = some c := by
        rw [← findStatusCondition_cons_of_ne d rest nc.type hd]
        exact hfind
      obtain ⟨ih1, ih2, ih3⟩ := ih hfind'
      refine ⟨?_, ?_, ?_⟩
      · intro hs hr hm hog
        simp only [setStatusCondition, if_neg hd]
        rw [ih1 hs hr hm hog]
      · intro hs hz
        simp only [setStatusCondition, if_neg hd]
        rw [findStatusCondition_cons_of_ne d _ nc.type hd]
        exact ih2 hs hz
      · intro hs
        simp only [setStatusCondition, if_neg hd]
        rw [findStatusCondition_cons_of_ne d _ nc.type hd]
        exact ih3 hs

/-- A re-set of the Ready condition changing only the reason. -/
def ncReasonW : Condition :=
  { type := "Ready", status := ConditionStatus.conditionTrue, reason := "other"
    message := "ready", lastTransitionTime := 0, observedGeneration := 0 }

/-- A re-set of the Ready condition with identical fields. -/
def ncSameW : Condition :=
  { type := "Ready", status := ConditionStatus.conditionTrue, reason := "ok"
    message := "ready", lastTransitionTime := 0, observedGeneration := 0 }

/-- A re-set of the Ready condition flipping the status to False. -/
def ncFalseW : Condition :=
  { type := "Ready", status := ConditionStatus.conditionFalse, reason := "fail"
    message := "broken", lastTransitionTime := 0, observedGeneration := 0 }

/-- C3 counterexample: re-setting the stored Ready condition (transition
time 7) at time 10 with the same type/status/message but a different
reason rewrites the reason yet leaves `lastTransitionTime` at 7 — a field
changed without bumping the timestamp, refuting the claim that changing
any field bumps `lastTransitionTime`. -/
theorem setStatusCondition_reason_change_keeps_time :
    setStatusCondition [readyCondW] ncReasonW 10 = [{ readyCondW with reason := "other" }]
    ∧ (setStatusCondition [readyCondW] ncReasonW 10).head?.map Condition.lastTransitionTime
        = some 7
    ∧ readyCondW.reason ≠ ncReasonW.reason
    ∧ (7 : Nat) ≠ 10 := by
  refine ⟨by decide, by decide, by decide, by decide⟩

theorem setStatusCondition_upsert_witness :
    setStatusCondition [readyCondW] ncSameW 10 = [readyCondW]
    ∧ findStatusCondition (setStatusCondition [readyCondW] ncFalseW 10) "Ready" =
        some { readyCondW with
                status := ConditionStatus.conditionFalse
                reason := "fail"
                message := "broken"
                observedGeneration := 0
                lastTransitionTime := 10 } :=
  ⟨(setStatusCondition_upsert [readyCondW] ncSameW readyCondW 10 (by decide)).1
      rfl rfl rfl rfl,
   (setStatusCondition_upsert [readyCondW] ncFalseW readyCondW 10 (by decide)).2.1
      (by decide) rfl⟩

/-- C2: with a non-empty pending plan and approval neither forced nor
automatic nor naming that exact plan id, the reconcile loop returns with
no requeue without ever invoking the plan/apply/drift cycle (so apply is
never reached), and the same gate re-checked after a successful cycle
again yields no requeue. -/
theorem reconcile_manual_approval_gate (tf tf0 reconciled : Terraform)
    (cycle : Terraform → Terraform × CycleOutcome)
    (hp : tf.status.plan.pending ≠ "")
    (hforce : tf.spec.force = false)
    (hauto : tf.spec.approvePlan ≠ ApprovePlanAutoValue)
    (hname : tf.spec.approvePlan ≠ tf.status.plan.pending)
    (hp' : reconciled.status.plan.pending ≠ "")
    (hforce' : reconciled.spec.force = false)
    (hauto' : reconciled.spec.approvePlan ≠ ApprovePlanAutoValue) :
    reconcileTail tf cycle =
      { cycleInvoked := false, decision := RequeueDecision.noRequeue }
    ∧ postCyclePhase tf0 reconciled CycleOutcome.ok = RequeueDecision.noRequeue := by
  constructor
  · unfold reconcileTail
    rw [if_pos ?_]
    simp [forceOrAutoApply, shouldApply, hp, hforce, hauto, hname]
  · unfold postCyclePhase
    rw [if_pos ?_]
    simp [forceOrAutoApply, hp', hforce', hauto']

/-- A Terraform object in manual mode with a pending plan. -/
def tfPendingW : Terraform :=
  { tfDriftW with status := { tfDriftW.status with
      plan := { planW with pending := "plan-main-aaa" } } }

/-- A plan/apply/drift cycle stub used by the gate witness. -/
def cycleW : Terraform → Terraform × CycleOutcome := fun t => (t, CycleOutcome.ok)

theorem reconcile_manual_approval_gate_witness :
    reconcileTail tfPendingW cycleW =
      { cycleInvoked := false, decision := RequeueDecision.noRequeue }
    ∧ postCyclePhase tfPendingW tfPendingW CycleOutcome.ok = RequeueDecision.noRequeue :=
  reconcile_manual_approval_gate tfPendingW tfPendingW tfPendingW cycleW
    (by decide) rfl (by decide) (by decide) (by decide) rfl (by decide)

theorem findSome?_append_of_forall_none {α β : Type} (f : α → Option β)
    (pre rest : List α) (hpre : ∀ a ∈ pre, f a = none) :
    (pre ++ rest).findSome? f = rest.findSome? f := by
  induction pre with
  | nil => rfl
  | cons p ps ih =>
    have hp : f p = none := hpre p (List.mem_cons_self p ps)
    rw [List.cons_append]
    simp only [List.findSome?_cons, hp]
    exact ih fun a ha => hpre a (List.mem_cons_of_mem p ha)

/-- C6: a declared dependency that resolves to an object with no
conditions or with an observed generation different from its current
generation makes the dependency check fail with the not-ready error for
that dependency, regardless of what the conditions contain, and this
single failure aborts the whole check with that reason. -/
theorem checkDependencies_notReady_on_stale (terraform tf : Terraform) (rev : String)
    (se : String → String → Bool) (gt : String → String → Option Terraform)
    (d : NamespacedObjectReference) (pre post : List NamespacedObjectReference)
    (hdeps : terraform.spec.dependsOn = pre ++ d :: post)
    (hpre : ∀ d' ∈ pre, checkDependency terraform rev se gt d' = none)
    (hget : gt (if d.nspace = "" then terraform.nspace else d.nspace) d.name = some tf)
    (hbad : tf.status.conditions = [] ∨ tf.generation ≠ tf.status.observedGeneration) :
    checkDependencies terraform rev se gt =
      some (DepCheckError.notReady
        (if d.nspace = "" then terraform.nspace else d.nspace) d.name) := by
  have hfd : checkDependency terraform rev se gt d =
      some (DepCheckError.notReady
        (if d.nspace = "" then terraform.nspace else d.nspace) d.name) := by
    simp only [checkDependency, hget]
    rcases hbad with h | h
    · rw [if_pos (Or.inl (by rw [h]; rfl))]
    · rw [if_pos (Or.inr h)]
  unfold checkDependencies
  rw [hdeps, findSome?_append_of_forall_none _ pre _ hpre]
  simp only [List.findSome?_cons, hfd]

/-- A dependency reference with a defaulted namespace. -/
def depRefW : NamespacedObjectReference := { name := "dep1", nspace := "" }

/-- A dependency object whose observed generation lags its generation. -/
def tfStaleW : Terraform :=
  { tfDriftW with generation := 3
                  status := { tfDriftW.status with observedGeneration := 2 } }

/-- A dependent declaring `depRefW` as its dependency. -/
def tfDependentW : Terraform :=
  { tfDriftW with name := "tf2", spec := { specW with dependsOn := [depRefW] } }

/-- A cluster-fetch stub resolving `dep1` to the stale dependency. -/
def gtStaleW : String → String → Option Terraform := fun ns n =>
  if ns = "default" ∧ n = "dep1" then some tfStaleW else none

/-- A secret-existence stub. -/
def seW : String → String → Bool := fun _ _ => true

theorem checkDependencies_notReady_on_stale_witness :
    checkDependencies tfDependentW "main/aaa" seW gtStaleW =
      some (DepCheckError.notReady
        (if depRefW.nspace = "" then tfDependentW.nspace else depRefW.nspace) depRefW.name) :=
  checkDependencies_notReady_on_stale tfDependentW tfStaleW "main/aaa" seW gtStaleW
    depRefW [] [] rfl (by intro d' hd'; exact absurd hd' (List.not_mem_nil d'))
    (by decide) (Or.inr (by decide))

/-- C7: a declared dependency that passed the readiness checks and shares
the dependent's source reference (kind, namespace, and name) fails with
the not-yet-updated error exactly when the source's current revision
matches neither its last-applied nor its last-planned revision; when it
does fail, that failure aborts the whole dependency check with that
reason. -/
theorem checkDependencies_notUpdated_on_same_source (terraform tf : Terraform)
    (rev : String) (se : String → String → Bool)
    (gt : String → String → Option Terraform)
    (d : NamespacedObjectReference) (pre post : List NamespacedObjectReference)
    (hdeps : terraform.spec.dependsOn = pre ++ d :: post)
    (hpre : ∀ d' ∈ pre, checkDependency terraform rev se gt d' = none)
    (hget : gt (if d.nspace = "" then terraform.nspace else d.nspace) d.name = some tf)
    (hconds : tf.status.conditions.length ≠ 0)
    (hgen : tf.generation = tf.status.observedGeneration)
    (hready : isStatusConditionTrue tf.status.conditions ReadyCondition = true)
    (hn : tf.spec.sourceRef.name = terraform.spec.sourceRef.name)
    (hns : tf.spec.sourceRef.nspace = terraform.spec.sourceRef.nspace)
    (hk : tf.spec.sourceRef.kind = terraform.spec.sourceRef.kind) :
    (checkDependency terraform rev se gt d =
        some (DepCheckError.notUpdated
          (if d.nspace = "" then terraform.nspace else d.nspace) d.name)
      ↔ (rev ≠ tf.status.lastAppliedRevision ∧ rev ≠ tf.status.lastPlannedRevision))
    ∧ (rev ≠ tf.status.lastAppliedRevision → rev ≠ tf.status.lastPlannedRevision →
      checkDependencies terraform rev se gt =
        some (DepCheckError.notUpdated
          (if d.nspace = "" then terraform.nspace else d.nspace) d.name)) := by
  have hstep : checkDependency terraform rev se gt d =
      (if tf.spec.sourceRef.name = terraform.spec.sourceRef.name ∧
          tf.spec.sourceRef.nspace = terraform.spec.sourceRef.nspace ∧
          tf.spec.sourceRef.kind = terraform.spec.sourceRef.kind ∧
          rev ≠ tf.status.lastAppliedRevision ∧ rev ≠ tf.status.lastPlannedRevision then
        some (DepCheckError.notUpdated
          (if d.nspace = "" then terraform.nspace else d.nspace) d.name)
       else
        match tf.spec.writeOutputsToSecret with
        | some w =>
          if se tf.nspace w.name then none
          else some (DepCheckError.outputSecretNotReady w.name tf.nspace d.name)
        | none => none) := by
    simp only [checkDependency, hget]
    rw [if_neg (by simp [hconds, hgen]), if_neg (by simp [hready])]
  have hiff : checkDependency terraform rev se gt d =
      some (DepCheckError.notUpdated
        (if d.nspace = "" then terraform.nspace else d.nspace) d.name)
      ↔ (rev ≠ tf.status.lastAppliedRevision ∧ rev ≠ tf.status.lastPlannedRevision) := by
    constructor
    · intro h
      by_cases hc : rev ≠ tf.status.lastAppliedRevision ∧ rev ≠ tf.status.lastPlannedRevision
      · exact hc
      · exfalso
        rw [hstep, if_neg (by tauto)] at h
        rcases hw : tf.spec.writeOutputsToSecret with _ | w <;> rw [hw] at h
        · simp at h
        · by_cases hs : se tf.nspace w.name = true
          · simp [hs] at h
          · simp [hs] at h
    · intro hc
      rw [hstep, if_pos ⟨hn, hns, hk, hc.1, hc.2⟩]
  refine ⟨hiff, ?_⟩
  intro h1 h2
  have hfd := hiff.mpr ⟨h1, h2⟩
  unfold checkDependencies
  rw [hdeps, findSome?_append_of_forall_none _ pre _ hpre]
  simp only [List.findSome?_cons, hfd]

/-- A dependency reference resolving to a ready same-source dependency. -/
def depRef2W : NamespacedObjectReference := { name := "dep2", nspace := "" }

/-- A dependent declaring `depRef2W` as its dependency. -/
def tfDependent2W : Terraform :=
  { tfDriftW with name := "tf3", spec := { specW with dependsOn := [depRef2W] } }

/-- A cluster-fetch stub resolving `dep2` to the ready dependency. -/
def gtReadyW : String → String → Option Terraform := fun ns n =>
  if ns = "default" ∧ n = "dep2" then some tfDriftW else none

theorem checkDependencies_notUpdated_on_same_source_witness :
    (checkDependency tfDependent2W "main/bbb" seW gtReadyW depRef2W =
        some (DepCheckError.notUpdated
          (if depRef2W.nspace = "" then tfDependent2W.nspace else depRef2W.nspace)
          depRef2W.name)
      ↔ ("main/bbb" ≠ tfDriftW.status.lastAppliedRevision ∧
         "main/bbb" ≠ tfDriftW.status.lastPlannedRevision))
    ∧ checkDependencies tfDependent2W "main/bbb" seW gtReadyW =
        some (DepCheckError.notUpdated
          (if depRef2W.nspace = "" then tfDependent2W.nspace else depRef2W.nspace)
          depRef2W.name) :=
  have h := checkDependencies_notUpdated_on_same_source tfDependent2W tfDriftW
    "main/bbb" seW gtReadyW depRef2W [] [] rfl
    (by intro d' hd'; exact absurd hd' (List.not_mem_nil d'))
    (by decide) (by decide) rfl (by decide) rfl rfl rfl
  ⟨h.1, h.2 (by decide) (by decide)⟩

theorem trimString_length_bound_witness :
    (trimString "hello" MaxConditionMessageLength).length ≤ MaxConditionMessageLength + 3
    ∧ trimString "hello" MaxConditionMessageLength = "hello" :=
  ⟨(trimString_length_bound "hello").1, (trimString_length_bound "hello").2 (by decide)⟩
